import Mathlib

/-!
Verification development for the GlowBook booking backend
(`src/controllers/webhook.controller.js` and its collaborators).

The JavaScript webhook controller is shallowly embedded below: every
`def` mirrors the function of the same name in the source, with

* JS `Date` values modelled as calendar triples `Ymd` (the code only ever
  uses dates at day granularity: it normalises to midnight before every
  comparison and renders with `toISOString().split('T')[0]`; a UTC runtime
  is assumed so local midnight and the ISO rendering name the same day);
* Firestore modelled as an association list of `(documentId, Appointment)`;
* outbound WhatsApp traffic modelled as a list of `OutMsg` effects;
* `new Date().toISOString()` timestamps threaded as an abstract `now`
  string and the current date as an abstract `today : Ymd`.

The few regular expressions the controller uses are embedded as
executable backtracking scanners with the same leftmost / lazy-group
semantics on the inputs this code feeds them.
-/

/-- A calendar date at day granularity (what the controller actually
computes with: it zeroes the time-of-day before every comparison).
`month` is 1-based (1 = January), matching the ISO rendering. -/
structure Ymd where
  year : Nat
  month : Nat
  day : Nat
  deriving DecidableEq, Repr

/-- Gregorian leap-year rule (as implemented by the JS `Date` object). -/
def isLeapYear (y : Nat) : Bool :=
  (y % 4 = 0 && y % 100 ≠ 0) || y % 400 = 0

/-- Number of days in a (1-based) month of a given year. -/
def daysInMonth (y m : Nat) : Nat :=
  if m = 2 then (if isLeapYear y then 29 else 28)
  else if m = 4 || m = 6 || m = 9 || m = 11 then 30
  else 31

/-- The calendar successor of a date (JS `setDate(getDate()+1)` rollover). -/
def nextCalDay (d : Ymd) : Ymd :=
  if d.day < daysInMonth d.year d.month then ⟨d.year, d.month, d.day + 1⟩
  else if d.month < 12 then ⟨d.year, d.month + 1, 1⟩
  else ⟨d.year + 1, 1, 1⟩

/-- The calendar predecessor of a date. -/
def prevCalDay (d : Ymd) : Ymd :=
  if 1 < d.day then ⟨d.year, d.month, d.day - 1⟩
  else if 1 < d.month then ⟨d.year, d.month - 1, daysInMonth d.year (d.month - 1)⟩
  else ⟨d.year - 1, 12, 31⟩

/-- Add `n` days to a date, with month/year rollover
(JS `date.setDate(date.getDate() + n)` for `n ≥ 0`). -/
def addDays (d : Ymd) : Nat → Ymd
  | 0 => d
  | n + 1 => addDays (nextCalDay d) n

/-- JS `new Date(year, monthIndex, day)`: `monthIndex` is 0-based and may
fall outside 0..11 in either direction — it is floor-normalised into the
year, so `-1` (reachable from the user input "D/0" via `month - 1`)
rolls back into December of the previous year, and a large index rolls
forward.  Day overflow rolls forward through the calendar; `day = 0` is
the last day of the preceding month.  Every caller passes `year ≥ 100`
whenever `monthIndex` can be negative, so the `toNat` clamp below never
truncates on reachable inputs. -/
def mkJsDate (year : Nat) (monthIndex : Int) (day : Nat) : Ymd :=
  let y := ((year : Int) + monthIndex.ediv 12).toNat
  let m := (monthIndex.emod 12).toNat + 1
  if day = 0 then prevCalDay ⟨y, m, 1⟩
  else addDays ⟨y, m, 1⟩ (day - 1)

/-- Zero-padded two-digit rendering used by `toISOString`. -/
def pad2 (n : Nat) : String :=
  if n < 10 then "0" ++ Nat.repr n else Nat.repr n

/-- `date.toISOString().split('T')[0]` — the canonical `YYYY-MM-DD`
rendering the controller stores and sends. -/
def toISO (d : Ymd) : String :=
  Nat.repr d.year ++ "-" ++ pad2 d.month ++ "-" ++ pad2 d.day

/-- Strict date-only comparison (`appointmentDate < today` after both sides
are normalised to midnight): lexicographic on (year, month, day). -/
def ymdLt (a b : Ymd) : Bool :=
  a.year < b.year ||
    (a.year = b.year && (a.month < b.month ||
      (a.month = b.month && a.day < b.day)))

/-- The latest calendar date a JS `Date` can hold: the time value is
capped at 8.64e15 ms from the epoch, i.e. +275760-09-13.  A constructed
date past this bound is an Invalid Date. -/
def jsMaxDate : Ymd := ⟨275760, 9, 13⟩

/-- `date.toISOString()` under `parseDate`'s surrounding try/catch: on a
date past the JS `Date` range the constructor yields an Invalid Date,
`toISOString` throws a RangeError, and the catch returns today's date
instead.  (`today` is the system-clock date, itself within range; Nat
years keep every construction above the lower bound of the range.) -/
def rangeCheckedOrToday (d today : Ymd) : Ymd :=
  if ymdLt jsMaxDate d then today else d

/-- JS `Date.prototype.getDay` (0 = Sunday … 6 = Saturday), via Sakamoto's
day-of-week algorithm. -/
def getDayOfWeek (d : Ymd) : Nat :=
  let t := [0, 3, 2, 5, 0, 3, 5, 1, 4, 6, 2, 4]
  let y := if d.month < 3 then d.year - 1 else d.year
  (y + y / 4 - y / 100 + y / 400 + t.getD (d.month - 1) 0 + d.day) % 7

/-- Adding days inside one month is plain day arithmetic. -/
theorem addDays_same_month (y m : Nat) (d n : Nat)
    (h : d + n ≤ daysInMonth y m) :
    addDays ⟨y, m, d⟩ n = ⟨y, m, d + n⟩ := by
  induction n generalizing d with
  | zero => rfl
  | succ k ih =>
    have hlt : d < daysInMonth y m := by omega
    have hstep : nextCalDay ⟨y, m, d⟩ = ⟨y, m, d + 1⟩ := by
      simp [nextCalDay, hlt]
    have : addDays ⟨y, m, d⟩ (k + 1) = addDays ⟨y, m, d + 1⟩ k := by
      simp [addDays, hstep]
    rw [this, ih (d + 1) (by omega)]
    congr 1
    omega

/-! ### Executable models of the controller's regular expressions

Each scanner below mirrors one JS regex with the engine's leftmost-match
and lazy-group semantics (spelled out as explicit backtracking).  `.` in
those patterns matches any character except a line terminator. -/

/-- One character of JS `\s`. -/
def isSpC (c : Char) : Bool := c.isWhitespace

/-- One character of JS `\d`. -/
def isDigitC (c : Char) : Bool := c.isDigit

/-- `[a-z]` (the controller applies these patterns to lowercased text). -/
def isAsciiLowerC (c : Char) : Bool := 'a' ≤ c && c ≤ 'z'

/-- Kernel-computable `toLowerCase` (character-wise; the keywords this
code compares against are ASCII). -/
def toLowerStr (s : String) : String := ⟨s.data.map Char.toLower⟩

/-- Kernel-computable `String.prototype.trim`. -/
def trimStr (s : String) : String :=
  ⟨((s.data.dropWhile isSpC).reverse.dropWhile isSpC).reverse⟩

/-- Kernel-computable `String.prototype.startsWith`. -/
def startsWithStr (s pat : String) : Bool := pat.data.isPrefixOf s.data

/-- Kernel-computable `substring(0, n)`. -/
def takeStr (s : String) (n : Nat) : String := ⟨s.data.take n⟩

/-- Kernel-computable "drop the first `n` characters" (the
`payload.replace(KNOWN_LITERAL, '')` idiom, applied after a
`startsWith` test has pinned the literal to position 0). -/
def dropStr (s : String) (n : Nat) : String := ⟨s.data.drop n⟩

/-- Kernel-computable `Array.prototype.join(sep)`. -/
def joinSep (sep : String) : List String → String
  | [] => ""
  | [x] => x
  | x :: xs => x ++ sep ++ joinSep sep xs

/-- Case-insensitive literal: if `pat` matches the beginning of `s`
(ignoring case), return the remainder. -/
def caselessLit (pat : String) (s : List Char) : Option (List Char) :=
  go pat.toList s
where
  go : List Char → List Char → Option (List Char)
    | [], s => some s
    | _, [] => none
    | p :: ps, c :: cs => if p.toLower = c.toLower then go ps cs else none

/-- `\s+`: at least one whitespace character (greedy). -/
def spaces1 (s : List Char) : Option (List Char) :=
  match s with
  | c :: cs => if isSpC c then some (cs.dropWhile isSpC) else none
  | [] => none

/-- Numeric value of a digit run (JS `parseInt(_, 10)` on the capture). -/
def natOfDigits (ds : List Char) : Nat :=
  ds.foldl (fun a c => a * 10 + (c.toNat - '0'.toNat)) 0

/-- The time token `\d+(?::\d+)?(?:\s*[ap]m)?` (greedy).  Returns the
matched characters and the remainder. -/
def matchTimeTok (s : List Char) : Option (List Char × List Char) :=
  let (ds, r1) := s.span isDigitC
  if ds.isEmpty then none else
  let (p2, r2) :=
    match r1 with
    | ':' :: t =>
      let (ds2, rr) := t.span isDigitC
      if ds2.isEmpty then (([] : List Char), r1) else (':' :: ds2, rr)
    | _ => ([], r1)
  let (p3, r3) :=
    let (sp, rr) := r2.span isSpC
    match rr with
    | a :: m :: t =>
      if (a.toLower = 'a' || a.toLower = 'p') && m.toLower = 'm' then
        (sp ++ [a, m], t)
      else ([], r2)
    | _ => ([], r2)
  some (ds ++ p2 ++ p3, r3)

/-- Leftmost-match driver: try the pattern at every start position. -/
def scanFor (pat : List Char → Option α) : List Char → Option α
  | [] => pat []
  | s@(_ :: t) =>
    match pat s with
    | some r => some r
    | none => scanFor pat t

/-- Lazy `(.+?)` followed by a continuation: grow the group one character
at a time (never across a line terminator), taking the first split whose
continuation succeeds. -/
def lazyDotPlus (cont : List Char → List Char → Option α) :
    List Char → List Char → Option α
  | _, [] => none
  | acc, c :: rest =>
    if c = '\n' || c = '\r' then none
    else
      let acc' := acc ++ [c]
      match cont acc' rest with
      | some r => some r
      | none => lazyDotPlus cont acc' rest

/-- Pattern 1 of `parseBookingMessage`:
`/book\s+(.+?)\s+on\s+(\d...)/i` — returns (service, date, time). -/
def match1 (message : String) : Option (String × String × String) :=
  scanFor (fun s =>
    (caselessLit "book" s).bind fun r1 =>
    (spaces1 r1).bind fun r2 =>
    lazyDotPlus (fun svc r3 =>
      (spaces1 r3).bind fun r4 =>
      (caselessLit "on" r4).bind fun r5 =>
      (spaces1 r5).bind fun r6 =>
      lazyDotPlus (fun date r7 =>
        (spaces1 r7).bind fun r8 =>
        (matchTimeTok r8).map fun (time, _) =>
          (String.mk svc, String.mk date, String.mk time)) [] r6) [] r2)
    message.toList

/-- The alternation `(today|tomorrow|day after tomorrow)` (first
alternative wins); returns the matched text and the remainder. -/
def matchRelDay (s : List Char) : Option (String × List Char) :=
  match caselessLit "today" s with
  | some r => some ("today", r)
  | none =>
  match caselessLit "tomorrow" s with
  | some r => some ("tomorrow", r)
  | none =>
  match caselessLit "day after tomorrow" s with
  | some r => some ("day after tomorrow", r)
  | none => none

/-- The optional `(?:at\s+)?` (greedy, with fallback to skipping it),
then the time token. -/
def optAtThenTime (s : List Char) : Option (List Char × List Char) :=
  match (caselessLit "at" s).bind spaces1 with
  | some r =>
    match matchTimeTok r with
    | some res => some res
    | none => matchTimeTok s
  | none => matchTimeTok s

/-- Pattern 2 of `parseBookingMessage`:
`/book\s+(.+?)\s+(today|tomorrow|day after tomorrow)\s+(?:at\s+)?(\d...)/i`
— returns (service, relative-day, time). -/
def match2 (message : String) : Option (String × String × String) :=
  scanFor (fun s =>
    (caselessLit "book" s).bind fun r1 =>
    (spaces1 r1).bind fun r2 =>
    lazyDotPlus (fun svc r3 =>
      (spaces1 r3).bind fun r4 =>
      (matchRelDay r4).bind fun (rel, r5) =>
      (spaces1 r5).bind fun r6 =>
      (optAtThenTime r6).map fun (time, _) =>
        (String.mk svc, rel, String.mk time)) [] r2)
    message.toList

/-- Pattern 3 of `parseBookingMessage`:
`/book\s+(.+?)\s+for\s+(.+?)\s+(?:at\s+)?(\d...)/i`
— returns (service, date, time). -/
def match3 (message : String) : Option (String × String × String) :=
  scanFor (fun s =>
    (caselessLit "book" s).bind fun r1 =>
    (spaces1 r1).bind fun r2 =>
    lazyDotPlus (fun svc r3 =>
      (spaces1 r3).bind fun r4 =>
      (caselessLit "for" r4).bind fun r5 =>
      (spaces1 r5).bind fun r6 =>
      lazyDotPlus (fun date r7 =>
        (spaces1 r7).bind fun r8 =>
        (optAtThenTime r8).map fun (time, _) =>
          (String.mk svc, String.mk date, String.mk time)) [] r6) [] r2)
    message.toList

/-- Weekday names in JS `getDay` order (index 0 = Sunday), as in the
`dayNames` arrays of `parseDateExpression`. -/
def dayNames : List String :=
  ["sunday", "monday", "tuesday", "wednesday", "thursday", "friday", "saturday"]

/-- First weekday name (in alternation order) matching a prefix of `s`;
returns its `dayNames` index and the remainder. -/
def matchWeekdayName (s : List Char) : Option (Nat × List Char) :=
  go dayNames 0
where
  go : List String → Nat → Option (Nat × List Char)
    | [], _ => none
    | w :: ws, i =>
      match caselessLit w s with
      | some r => some (i, r)
      | none => go ws (i + 1)

/-- The scans `/next\s+(sunday|…)/i` and `/this\s+(sunday|…)/i` of
`parseDateExpression`: find `kw` followed by whitespace and a weekday
name, returning the weekday's index. -/
def scanKeywordWeekday (kw : String) (s : String) : Option Nat :=
  scanFor (fun cs =>
    (caselessLit kw cs).bind fun r1 =>
    (spaces1 r1).bind fun r2 =>
    (matchWeekdayName r2).map (·.1)) s.toList

/-- The optional ordinal suffix `(?:st|nd|rd|th)?`. -/
def ordinalChop (s : List Char) : Option (List Char) :=
  match caselessLit "st" s with
  | some r => some r
  | none =>
  match caselessLit "nd" s with
  | some r => some r
  | none =>
  match caselessLit "rd" s with
  | some r => some r
  | none => caselessLit "th" s

/-- `parseDate`'s pattern `/(\d+)(?:st|nd|rd|th)?\s+([a-z]+)/` — e.g.
"2nd May" — returning (day number, month word). -/
def dayMonthMatch (s : String) : Option (Nat × String) :=
  scanFor (fun cs =>
    let (ds, r1) := cs.span isDigitC
    if ds.isEmpty then none else
    let cont := fun (r : List Char) =>
      (spaces1 r).bind fun r2 =>
      let (ls, _) := r2.span isAsciiLowerC
      if ls.isEmpty then none else some (natOfDigits ds, String.mk ls)
    match ordinalChop r1 with
    | some r1' =>
      match cont r1' with
      | some res => some res
      | none => cont r1
    | none => cont r1) s.toList

/-- `parseDate`'s pattern `/([a-z]+)\s+(\d+)(?:st|nd|rd|th)?/` — e.g.
"May 2" — returning (month word, day number). -/
def monthDayMatch (s : String) : Option (String × Nat) :=
  scanFor (fun cs =>
    let (ls, r1) := cs.span isAsciiLowerC
    if ls.isEmpty then none else
    (spaces1 r1).bind fun r2 =>
    let (ds, _) := r2.span isDigitC
    if ds.isEmpty then none else some (String.mk ls, natOfDigits ds)) s.toList

/-- A `/` or `-` date separator. -/
def isDateSepC (c : Char) : Bool := c = '/' || c = '-'

/-- `parseDate`'s pattern `/(\d+)[\/\-](\d+)(?:[\/\-](\d+))?/` — e.g.
"2/5" or "2/5/2023" — returning (first, second, optional third). -/
def numericMatch (s : String) : Option (Nat × Nat × Option Nat) :=
  scanFor (fun cs =>
    let (d1, r1) := cs.span isDigitC
    if d1.isEmpty then none else
    match r1 with
    | sep :: r2 =>
      if isDateSepC sep then
        let (d2, r3) := r2.span isDigitC
        if d2.isEmpty then none else
        let noYear := some (natOfDigits d1, natOfDigits d2, (none : Option Nat))
        match r3 with
        | sep2 :: r4 =>
          if isDateSepC sep2 then
            let (d3, _) := r4.span isDigitC
            if d3.isEmpty then noYear
            else some (natOfDigits d1, natOfDigits d2, some (natOfDigits d3))
          else noYear
        | [] => noYear
      else none
    | [] => none) s.toList

/-! ### `new Date(string)` and the date parsers -/

/-- Strict ISO literal `YYYY-MM-DD` (the ECMAScript date-time format at
day precision), validated against the calendar. -/
def parseIsoLit (cs : List Char) : Option Ymd :=
  match cs with
  | [y1, y2, y3, y4, s1, m1, m2, s2, d1, d2] =>
    if [y1, y2, y3, y4, m1, m2, d1, d2].all isDigitC && s1 = '-' && s2 = '-' then
      let y := natOfDigits [y1, y2, y3, y4]
      let m := natOfDigits [m1, m2]
      let d := natOfDigits [d1, d2]
      if 1 ≤ m && m ≤ 12 && 1 ≤ d && d ≤ daysInMonth y m then some ⟨y, m, d⟩
      else none
    else none
  | _ => none

/-- V8's mapping of a two-digit year in a legacy numeric date. -/
def legacyYear (y : Nat) : Nat :=
  if y < 50 then 2000 + y else if y < 100 then 1900 + y else y

/-- An all-numeric legacy date: two or three digit runs joined by `/` or
`-` and nothing else.  V8 reads these month-first (`M/D` or `M/D/Y`, with
a missing year defaulting to 2001), except that a leading number too
large for a day makes it `Y/M/D`; out-of-calendar components, or a date
past the JS `Date` range, are Invalid. -/
def parseUsNumeric (cs : List Char) : Option Ymd :=
  let (n1, r1) := cs.span isDigitC
  if n1.isEmpty then none else
  match r1 with
  | sep :: r2 =>
    if !isDateSepC sep then none else
    let (n2, r3) := r2.span isDigitC
    if n2.isEmpty then none else
    let a := natOfDigits n1
    let b := natOfDigits n2
    match r3 with
    | [] => usMonthDay a b 2001
    | sep2 :: r4 =>
      if !isDateSepC sep2 then none else
      let (n3, r5) := r4.span isDigitC
      if n3.isEmpty || !r5.isEmpty then none else
      let c := natOfDigits n3
      if 32 ≤ a then
        -- year first: Y/M/D
        if 1 ≤ b && b ≤ 12 && 1 ≤ c && c ≤ daysInMonth a b &&
            !ymdLt jsMaxDate ⟨a, b, c⟩ then some ⟨a, b, c⟩
        else none
      else usMonthDay a b (legacyYear c)
  | [] => none
where
  usMonthDay (m d y : Nat) : Option Ymd :=
    if 1 ≤ m && m ≤ 12 && 1 ≤ d && d ≤ daysInMonth y m &&
        !ymdLt jsMaxDate ⟨y, m, d⟩ then some ⟨y, m, d⟩
    else none

/-- Model of the JS `new Date(string)` constructor (V8).  `parseDate`
hands every raw user date string to the constructor first, so this is
consulted on arbitrary text.  It is exact on the shapes the proofs rely
on: a strict ISO date; an all-numeric legacy date (month-first, range-
checked); a number followed by a garbage word, as in "15th May", which
V8 rejects (garbage words after a number invalidate the parse); and free
text without digits.  The remaining V8-accepted literal families —
month-name forms such as "15 May" / "May 15" and bare year numbers such
as "2020" — are outside the model and conservatively mapped to `none`;
theorems carrying a `jsDateParse _ = none` hypothesis therefore make no
statement about the program's behaviour on those strings. -/
def jsDateParse (s : String) : Option Ymd :=
  let cs := (trimStr s).toList
  match parseIsoLit cs with
  | some d => some d
  | none => parseUsNumeric cs

/-- The month-name/abbreviation table of `parseDate` (values are JS
0-based month indices, exactly as in the source). -/
def monthsTable : List (String × Nat) :=
  [("january", 0), ("jan", 0),
   ("february", 1), ("feb", 1),
   ("march", 2), ("mar", 2),
   ("april", 3), ("apr", 3),
   ("may", 4),
   ("june", 5), ("jun", 5),
   ("july", 6), ("jul", 6),
   ("august", 7), ("aug", 7),
   ("september", 8), ("sep", 8), ("sept", 8),
   ("october", 9), ("oct", 9),
   ("november", 10), ("nov", 10),
   ("december", 11), ("dec", 11)]

/-- `months[monthName] !== undefined` lookup. -/
def monthsLookup (w : String) : Option Nat :=
  (monthsTable.find? (fun p => p.1 = w)).map (·.2)

/-- The "2nd May" pattern combined with the month-table guard (the source
falls through to the next pattern when the word is not a month name). -/
def dayMonthResolved (lower : String) : Option (Nat × Nat) :=
  (dayMonthMatch lower).bind fun (d, w) =>
    (monthsLookup w).map fun m => (d, m)

/-- The "May 2" pattern combined with the month-table guard. -/
def monthDayResolved (lower : String) : Option (Nat × Nat) :=
  (monthDayMatch lower).bind fun (w, d) =>
    (monthsLookup w).map fun m => (d, m)

/-- `parseDate(dateStr)` of the webhook controller, as a calendar date.
The source returns `toISO` of exactly this value and its callers
immediately re-read that string with `new Date(...)`; the embedding
elides that injective print/parse round trip.  Resolution order as in the
source: relative keywords, `new Date(dateStr)`, "2nd May", "May 2",
numeric day-first `D/M(/Y)` (2-digit years coerced to 2000+YY), and
finally today's date as the fallback.  In the numeric branch — the one
place the constructed year and month are fully user-controlled — a date
past the JS `Date` range makes `toISOString` throw and the surrounding
catch return today (`rangeCheckedOrToday`), and `month - 1` is computed
in `Int` so that a `0` month rolls back into the previous December.  In
the month-name branches the year is the current clock year, so only a
day count beyond ~10^8 could leave the range; that corner is outside the
model. -/
def parseDateY (dateStr : String) (today : Ymd) : Ymd :=
  let lower := toLowerStr dateStr
  if lower = "today" then today
  else if lower = "tomorrow" then addDays today 1
  else if lower = "day after tomorrow" then addDays today 2
  else
    match jsDateParse dateStr with
    | some d => d
    | none =>
      match dayMonthResolved lower with
      | some (d, m) => mkJsDate today.year (m : Int) d
      | none =>
        match monthDayResolved lower with
        | some (d, m) => mkJsDate today.year (m : Int) d
        | none =>
          match numericMatch lower with
          | some (d, m, yOpt) =>
            let year :=
              match yOpt with
              | some y => if y < 100 then y + 2000 else y
              | none => today.year
            rangeCheckedOrToday (mkJsDate year ((m : Int) - 1) d) today
          | none => today

/-- `parseDate` as the source returns it: the ISO rendering. -/
def parseDate (dateStr : String) (today : Ymd) : String :=
  toISO (parseDateY dateStr today)

/-- `parseDateExpression(expression)`, as a calendar date: "next
<weekday>" (offset forced to a full week when it would be 0), "this
<weekday>", then `new Date(expression)`, then the `parseDate` fallback. -/
def parseDateExpressionY (expression : String) (today : Ymd) : Ymd :=
  let lower := toLowerStr expression
  match scanKeywordWeekday "next" lower with
  | some targetDay =>
    let k := (targetDay + 7 - getDayOfWeek today) % 7
    addDays today (if k = 0 then 7 else k)
  | none =>
    match scanKeywordWeekday "this" lower with
    | some targetDay =>
      addDays today ((targetDay + 7 - getDayOfWeek today) % 7)
    | none =>
      match jsDateParse expression with
      | some d => d
      | none => parseDateY expression today

/-- `parseDateExpression` as the source returns it: the ISO rendering. -/
def parseDateExpression (expression : String) (today : Ymd) : String :=
  toISO (parseDateExpressionY expression today)

/-- The {service, date, time} tuple extracted from a booking message. -/
structure BookingData where
  service : String
  date : String
  time : String
  deriving DecidableEq, Repr

/-- `parseBookingMessage(message)`: the three templates tried in order
(pattern 1 "book … on … <time>", pattern 2 with a relative day, pattern 3
"book … for … <time>"); `none` when no template matches. -/
def parseBookingMessage (message : String) (today : Ymd) : Option BookingData :=
  match match1 message with
  | some (service, dateStr, timeStr) =>
    some ⟨trimStr service, trimStr dateStr, trimStr timeStr⟩
  | none =>
    match match2 message with
    | some (service, relativeDay, timeStr) =>
      let relLower := toLowerStr relativeDay
      let date :=
        if relLower = "tomorrow" then addDays today 1
        else if relLower = "day after tomorrow" then addDays today 2
        else today
      some ⟨trimStr service, toISO date, trimStr timeStr⟩
    | none =>
      match match3 message with
      | some (service, dateStr, timeStr) =>
        some ⟨trimStr service, parseDateExpression (trimStr dateStr) today, trimStr timeStr⟩
      | none => none

/-! ### Data model

Firestore documents are embedded as records; the `appointments`
collection as an association list of `(documentId, Appointment)`.
Outbound WhatsApp traffic is a list of `OutMsg` effects; the
NotificationDispatcher's template/fallback tiers are below this model's
boundary (one `confirmation` effect = one `sendAppointmentConfirmation`
call). -/

/-- An entry of a business profile's embedded `services` list.
`duration`/`price` are numbers in the source; a missing value is
modelled as `0` (JS falsy), matching the `|| 60` / `|| 0` defaults. -/
structure Service where
  id : String
  name : String
  duration : Nat
  price : Nat
  description : Option String
  deriving DecidableEq, Repr

/-- One weekday's entry of `workingHours` (`open`/`close` renamed
`openTime`/`closeTime`: `open` is a Lean keyword). -/
structure DayHours where
  closed : Bool
  openTime : Option String
  closeTime : Option String
  deriving DecidableEq, Repr

/-- A `businessProfiles` document (the fields the webhook pipeline
reads). `workingHours` is an association list over weekday names. -/
structure BusinessProfile where
  businessName : String
  whatsappNumber : String
  services : List Service
  workingHours : List (String × DayHours)
  phone : Option String
  deriving DecidableEq, Repr

/-- An `appointments` document as created/updated by this controller. -/
structure Appointment where
  parlourId : String
  businessName : String
  customerName : String
  customerPhone : String
  serviceId : String
  serviceName : String
  appointmentDate : String
  appointmentTime : String
  duration : Nat
  price : Nat
  status : String
  createdAt : String
  updatedAt : String
  notes : String
  deriving DecidableEq, Repr

/-- The `appointments` collection: `(documentId, document)` pairs. -/
abbrev Store : Type := List (String × Appointment)

/-- One outbound WhatsApp send: a plain text message, or one
`sendAppointmentConfirmation(to, {customerName, serviceName, date, time})`
call (`to` renamed `recipient`: `to` is a Lean keyword). -/
inductive OutMsg where
  | text (recipient msg : String)
  | confirmation (recipient customerName serviceName date time : String)
  deriving DecidableEq, Repr

/-- The observable outcome of handling one inbound event: the resulting
`appointments` collection, the appointment documents newly added to it
(`db.collection('appointments').add(...)`; the store-assigned fresh ids
are elided — nothing in the pipeline reads a just-created document back),
and the outbound sends in order. -/
structure Effects where
  store : Store
  created : List Appointment
  sends : List OutMsg
  deriving DecidableEq, Repr

/-- No store change, nothing created, nothing sent. -/
def noEffects (store : Store) : Effects := ⟨store, [], []⟩

/-- `phone.startsWith('+') ? phone : '+' + phone`. -/
def formatPhone (phone : String) : String :=
  if startsWithStr phone "+" then phone else "+" ++ phone

/-- JS `string || default` (empty string and a missing value are falsy). -/
def jsOr (v : Option String) (dflt : String) : String :=
  match v with
  | some s => if s = "" then dflt else s
  | none => dflt

/-- JS `String.prototype.includes`. -/
def listIncludes (hay needle : List Char) : Bool :=
  if needle.isPrefixOf hay then true
  else
    match hay with
    | [] => false
    | _ :: t => listIncludes t needle

/-- `hay.includes(needle)` on strings. -/
def strIncludes (hay needle : String) : Bool :=
  listIncludes hay.toList needle.toList

/-- `s.name.toLowerCase() === serviceText.toLowerCase()` — the exact
(step-1) service test of `handleBookingRequest`. -/
def exactNameMatch (serviceText : String) (s : Service) : Bool :=
  toLowerStr s.name = toLowerStr serviceText

/-- `s.name.toLowerCase().includes(serviceText.toLowerCase())` — the
substring (step-2) service test of `handleBookingRequest`. -/
def subNameMatch (serviceText : String) (s : Service) : Bool :=
  strIncludes (toLowerStr s.name) (toLowerStr serviceText)

/-- The ServiceMatcher of `handleBookingRequest`: first exact
case-insensitive name equality, then (only if that fails) first
case-insensitive substring containment, in catalog order. -/
def matchService (serviceText : String) (services : List Service) : Option Service :=
  match services.find? (exactNameMatch serviceText) with
  | some s => some s
  | none => services.find? (subNameMatch serviceText)

/-- The not-found reply of `handleBookingRequest`, listing the valid
service names (comma-joined; `'None'` when the join is empty). -/
def serviceNotFoundMessage (service : String) (services : List Service) : String :=
  let availableServices := joinSep ", " (services.map (·.name))
  "Sorry, we couldn\x27t find the service \"" ++ service ++ "\". Available services: " ++
    (if availableServices = "" then "None" else availableServices)

/-- The past-date rejection reply of `handleBookingRequest`. -/
def pastDateMessage : String :=
  "Sorry, you cannot book an appointment in the past. Please provide a future date."

/-- `handleBookingRequest(phone, bookingData, businessProfile, parlourId,
originalMessage)`: match the service, resolve and validate the date
(rejecting resolved dates strictly before today, both at midnight), then
create the `status: 'scheduled'` appointment and send exactly one
confirmation. -/
def handleBookingRequest (phone : String) (bookingData : BookingData)
    (businessProfile : BusinessProfile) (parlourId originalMessage : String)
    (store : Store) (today : Ymd) (now : String) : Effects :=
  let formattedPhone := formatPhone phone
  let services := businessProfile.services
  match matchService bookingData.service services with
  | none =>
    { store := store, created := [],
      sends := [.text phone (serviceNotFoundMessage bookingData.service services)] }
  | some matchingService =>
    let parsedDate := parseDateY bookingData.date today
    if ymdLt parsedDate today then
      { store := store, created := [], sends := [.text phone pastDateMessage] }
    else
      let appointmentData : Appointment :=
        { parlourId := parlourId
          businessName := businessProfile.businessName
          customerName := "WhatsApp Customer (" ++ formattedPhone ++ ")"
          customerPhone := formattedPhone
          serviceId := matchingService.id
          serviceName := matchingService.name
          appointmentDate := toISO parsedDate
          appointmentTime := bookingData.time
          duration := if matchingService.duration = 0 then 60 else matchingService.duration
          price := matchingService.price
          status := "scheduled"
          createdAt := now
          updatedAt := now
          notes := "Booked via WhatsApp with message: \"" ++ originalMessage ++ "\"" }
      { store := store, created := [appointmentData],
        sends := [.confirmation phone appointmentData.customerName
          appointmentData.serviceName appointmentData.appointmentDate
          appointmentData.appointmentTime] }

/-- The reply of `cancelAppointment` when no appointment matches. -/
def cancelNotFoundMessage : String :=
  "Sorry, we couldn\x27t find an appointment with that reference code. Please check and try again."

/-- The reply when the matched appointment is already cancelled. -/
def alreadyCancelledMessage : String :=
  "This appointment has already been cancelled."

/-- The success reply of `cancelAppointment`. -/
def cancelledMessage (a : Appointment) : String :=
  "Your appointment for " ++ a.serviceName ++ " on " ++ a.appointmentDate ++
    " at " ++ a.appointmentTime ++ " has been cancelled. Thank you for letting us know."

/-- The `snapshot.forEach` scan of `cancelAppointment`: every document
whose id starts with the reference code and matches business + customer
overwrites the previous candidate, so the last match wins. -/
def findCancelTarget (store : Store) (refCode parlourId formattedPhone : String) :
    Option (String × Appointment) :=
  (store.filter (fun p =>
    startsWithStr p.1 refCode && p.2.parlourId = parlourId &&
      p.2.customerPhone = formattedPhone)).getLast?

/-- `cancelAppointment(phone, refCode, parlourId)`: resolve the reference
code; reply not-found, or already-cancelled (no write), or update the
document to `cancelled` with an audit line appended to `notes`. -/
def cancelAppointment (phone refCode parlourId : String) (store : Store)
    (now : String) : Effects :=
  let formattedPhone := formatPhone phone
  match findCancelTarget store refCode parlourId formattedPhone with
  | none =>
    { store := store, created := [], sends := [.text phone cancelNotFoundMessage] }
  | some (appointmentId, appointment) =>
    if appointment.status = "cancelled" then
      { store := store, created := [], sends := [.text phone alreadyCancelledMessage] }
    else
      let updated := { appointment with
        status := "cancelled"
        updatedAt := now
        notes := appointment.notes ++ "\nCancelled via WhatsApp by customer on " ++ now }
      { store := store.map (fun p => if p.1 = appointmentId then (p.1, updated) else p),
        created := [],
        sends := [.text phone (cancelledMessage appointment)] }

/-! ### Informational responses -/

/-- `day.charAt(0).toUpperCase() + day.slice(1)`. -/
def capitalizeFirst (s : String) : String :=
  match s.toList with
  | [] => s
  | c :: rest => String.mk (c.toUpper :: rest)

/-- The welcome reply of `sendWelcomeMessage`. -/
def welcomeMessage (businessName : String) : String :=
  "Welcome to " ++ businessName ++ "! \nHow can I help you today?\n" ++
  "• Book an appointment\n• View our services\n" ++
  "• Check our working hours\n• Check your booking status\n\n" ++
  "Type \"help\" for more options."

/-- One numbered entry of the services list. -/
def serviceLine (index : Nat) (service : Service) : String :=
  Nat.repr (index + 1) ++ ". *" ++ service.name ++ "*\n" ++
  "   Duration: " ++ Nat.repr service.duration ++ " mins\n" ++
  "   Price: ₹" ++ Nat.repr service.price ++ "\n" ++
  (match service.description with
   | some d => if d = "" then "" else "   " ++ d ++ "\n"
   | none => "") ++
  "\n"

/-- `sendServicesList(phone, businessProfile)`. -/
def sendServicesList (phone : String) (businessProfile : BusinessProfile) :
    List OutMsg :=
  if businessProfile.services.isEmpty then
    [.text phone (businessProfile.businessName ++
      " hasn\x27t set up their services yet. Please contact them directly.")]
  else
    let body := (businessProfile.services.enum.map
      (fun p => serviceLine p.1 p.2)).foldl (· ++ ·) ""
    [.text phone ("*Services at " ++ businessProfile.businessName ++ "*\n\n" ++
      body ++ "To book, send a message like: \"Book Haircut on 2nd May 3PM\"")]

/-- The fixed weekday order of `sendWorkingHours`. -/
def daysOfWeekList : List String :=
  ["monday", "tuesday", "wednesday", "thursday", "friday", "saturday", "sunday"]

/-- One weekday line of the working-hours reply. -/
def dayHoursLine (workingHours : List (String × DayHours)) (day : String) : String :=
  match (workingHours.find? (fun p => p.1 = day)).map (·.2) with
  | some dayHours =>
    if dayHours.closed then "*" ++ capitalizeFirst day ++ "*: Closed\n"
    else
      "*" ++ capitalizeFirst day ++ "*: " ++ jsOr dayHours.openTime "9:00 AM" ++
        " - " ++ jsOr dayHours.closeTime "6:00 PM" ++ "\n"
  | none => "*" ++ capitalizeFirst day ++ "*: No information\n"

/-- `sendWorkingHours(phone, businessProfile)`. -/
def sendWorkingHours (phone : String) (businessProfile : BusinessProfile) :
    List OutMsg :=
  if businessProfile.workingHours.isEmpty then
    [.text phone (businessProfile.businessName ++
      " hasn\x27t set up their working hours yet. Please contact them directly.")]
  else
    [.text phone ("*Working Hours at " ++ businessProfile.businessName ++ "*\n\n" ++
      (daysOfWeekList.map (dayHoursLine businessProfile.workingHours)).foldl (· ++ ·) "")]

/-- Insert into a `≤`-sorted list (used to model the Firestore
`orderBy('appointmentDate').orderBy('appointmentTime')` result). -/
def insertBy (le : α → α → Bool) (x : α) : List α → List α
  | [] => [x]
  | y :: ys => if le x y then x :: y :: ys else y :: insertBy le x ys

/-- Stable insertion sort. -/
def insertionSortBy (le : α → α → Bool) : List α → List α
  | [] => []
  | x :: xs => insertBy le x (insertionSortBy le xs)

/-- Lexicographic (code-point) string order, the order Firestore uses on
the ISO date and time-text fields. -/
def strLeCh : List Char → List Char → Bool
  | [], _ => true
  | _ :: _, [] => false
  | a :: as, b :: bs =>
    if a.toNat < b.toNat then true
    else if a.toNat = b.toNat then strLeCh as bs
    else false

/-- `≤` on strings. -/
def strLe (a b : String) : Bool := strLeCh a.toList b.toList

/-- Ascending (date, time) order on appointment documents. -/
def apptLe (a b : String × Appointment) : Bool :=
  if a.2.appointmentDate = b.2.appointmentDate then
    strLe a.2.appointmentTime b.2.appointmentTime
  else strLe a.2.appointmentDate b.2.appointmentDate

/-- The query shared by `checkBookingStatus` and
`handleCancellationRequest`: this business + customer, status scheduled
or confirmed, ordered by date then time, limited to 5. -/
def upcomingAppointments (store : Store) (parlourId formattedPhone : String) :
    List (String × Appointment) :=
  (insertionSortBy apptLe (store.filter (fun p =>
    p.2.parlourId = parlourId && p.2.customerPhone = formattedPhone &&
      (p.2.status = "scheduled" || p.2.status = "confirmed")))).take 5

/-- One appointment block of the `status` reply. -/
def statusEntryLine (p : String × Appointment) : String :=
  "*" ++ p.2.serviceName ++ "*\n" ++
  "Date: " ++ p.2.appointmentDate ++ "\n" ++
  "Time: " ++ p.2.appointmentTime ++ "\n" ++
  "Status: " ++ capitalizeFirst p.2.status ++ "\n" ++
  "Ref: " ++ takeStr p.1 8 ++ "\n\n"

/-- `checkBookingStatus(phone, parlourId)`. -/
def checkBookingStatus (phone parlourId : String) (store : Store) : List OutMsg :=
  let formattedPhone := formatPhone phone
  let snapshot := upcomingAppointments store parlourId formattedPhone
  if snapshot.isEmpty then
    [.text phone "You don\x27t have any upcoming appointments. Would you like to book one?"]
  else
    [.text phone ("*Your Upcoming Appointments*\n\n" ++
      (snapshot.map statusEntryLine).foldl (· ++ ·) "" ++
      "To cancel an appointment, type \"cancel\" followed by the reference number.")]

/-- One appointment line of the cancellation-list reply. -/
def cancelListEntryLine (p : String × Appointment) : String :=
  "*" ++ p.2.serviceName ++ "* on " ++ p.2.appointmentDate ++ " at " ++
    p.2.appointmentTime ++ "\n" ++ "Ref: " ++ takeStr p.1 8 ++ "\n\n"

/-- `handleCancellationRequest(phone, parlourId)` (the bare `cancel`
command): list the cancellable appointments with their reference codes. -/
def handleCancellationRequest (phone parlourId : String) (store : Store) :
    List OutMsg :=
  let formattedPhone := formatPhone phone
  let snapshot := upcomingAppointments store parlourId formattedPhone
  if snapshot.isEmpty then
    [.text phone "You don\x27t have any upcoming appointments to cancel."]
  else
    [.text phone ("To cancel, reply with \"cancel\" followed by the reference number:\n\n" ++
      (snapshot.map cancelListEntryLine).foldl (· ++ ·) "" ++
      "Example: \"cancel abc123de\"")]

/-- The help reply of `sendHelpMessage`. -/
def helpMessage (businessProfile : BusinessProfile) : String :=
  "*" ++ businessProfile.businessName ++ " Help*\n\n" ++
  "Here are the commands you can use:\n\n" ++
  "• \"Book [service] on [date] [time]\" - Make an appointment\n" ++
  "• \"services\" - View our service menu\n" ++
  "• \"hours\" - Check our working hours\n" ++
  "• \"status\" - Check your booking status\n" ++
  "• \"cancel\" - Cancel an appointment\n" ++
  "• \"help\" - Show this help message\n\n" ++
  "For direct assistance, please call " ++ jsOr businessProfile.phone "the salon" ++ "."

/-- The fallback sent when a text is neither a recognised command nor a
parseable booking request: it restates the command vocabulary. -/
def commandVocabularyMessage (businessName : String) : String :=
  "Welcome to " ++ businessName ++ "! \nYou can type:\n" ++
  "• \"Book [service] on [date] [time]\" to make an appointment\n" ++
  "• \"services\" to see our services\n" ++
  "• \"hours\" to check our working hours\n" ++
  "• \"status\" to check your bookings\n" ++
  "• \"help\" for more options"

/-! ### Message routing -/

/-- `processTextMessage`: trim, dispatch on the fixed command keywords
(case-insensitive exact equality), otherwise try the booking templates,
otherwise send the command-vocabulary fallback.  Note the `cancel`
keyword is matched only as the *whole* message — a text `cancel <ref>`
falls through to the booking parser and ends in the fallback. -/
def processTextMessage (body fromNumber : String)
    (businessProfile : BusinessProfile) (parlourId : String) (store : Store)
    (today : Ymd) (now : String) : Effects :=
  let messageText := trimStr body
  let lowerText := toLowerStr messageText
  if lowerText = "hi" || lowerText = "hello" || lowerText = "hey" then
    { store := store, created := [],
      sends := [.text fromNumber (welcomeMessage businessProfile.businessName)] }
  else if lowerText = "services" || lowerText = "menu" then
    { store := store, created := [], sends := sendServicesList fromNumber businessProfile }
  else if lowerText = "hours" || lowerText = "timing" || lowerText = "timings" then
    { store := store, created := [], sends := sendWorkingHours fromNumber businessProfile }
  else if lowerText = "status" || lowerText = "my booking" || lowerText = "my appointment" then
    { store := store, created := [], sends := checkBookingStatus fromNumber parlourId store }
  else if lowerText = "cancel" then
    { store := store, created := [],
      sends := handleCancellationRequest fromNumber parlourId store }
  else if lowerText = "help" then
    { store := store, created := [], sends := [.text fromNumber (helpMessage businessProfile)] }
  else
    match parseBookingMessage messageText today with
    | some bookingData =>
      handleBookingRequest fromNumber bookingData businessProfile parlourId
        messageText store today now
    | none =>
      { store := store, created := [],
        sends := [.text fromNumber (commandVocabularyMessage businessProfile.businessName)] }

/-- Month names for the `en-US` date rendering. -/
def monthLongNames : List String :=
  ["January", "February", "March", "April", "May", "June", "July",
   "August", "September", "October", "November", "December"]

/-- Weekday names for the `en-US` date rendering, in `getDay` order. -/
def weekdayLongNames : List String :=
  ["Sunday", "Monday", "Tuesday", "Wednesday", "Thursday", "Friday", "Saturday"]

/-- `date.toLocaleDateString('en-US', {weekday:'long', month:'long',
day:'numeric'})`, e.g. "Saturday, October 11". -/
def formatLocaleDate (d : Ymd) : String :=
  weekdayLongNames.getD (getDayOfWeek d) "" ++ ", " ++
    monthLongNames.getD (d.month - 1) "" ++ " " ++ Nat.repr d.day

/-- `handleServiceSelection(phone, serviceId, businessProfile, parlourId)`:
prompt for a date (the stateless step of the selection dialogue). -/
def handleServiceSelection (phone serviceId : String)
    (businessProfile : BusinessProfile) (today : Ymd) : List OutMsg :=
  match businessProfile.services.find? (fun s => s.id = serviceId) with
  | none =>
    [.text phone "Sorry, that service is no longer available. Please check our current services by typing \"services\"."]
  | some service =>
    [.text phone ("You\x27ve selected: *" ++ service.name ++
      "*\n\nPlease reply with your preferred date:\n• Today (" ++
      formatLocaleDate today ++ ")\n• Tomorrow (" ++
      formatLocaleDate (addDays today 1) ++ ")\n• " ++
      formatLocaleDate (addDays today 2) ++
      "\n• Next week\n\nOr type a specific date like \"15th May\"")]

/-- `handleDateSelection(phone, dateStr, ...)`: prompt for a time. -/
def handleDateSelection (phone dateStr : String) (today : Ymd) : List OutMsg :=
  let parsedDate := parseDate dateStr today
  [.text phone ("You\x27ve selected: *" ++ parsedDate ++
    "*\n\nPlease reply with your preferred time:\n• Morning (9 AM - 12 PM)\n• Afternoon (12 PM - 4 PM)\n• Evening (4 PM - 8 PM)\n\nOr type a specific time like \"3:30 PM\"")]

/-- `handleTimeSelection(phone, timeStr, ...)`: prompt for confirmation. -/
def handleTimeSelection (phone timeStr : String) : List OutMsg :=
  [.text phone ("You\x27ve selected: *" ++ timeStr ++
    "*\n\nWould you like to confirm this booking? Reply with \"yes\" to confirm or \"no\" to start over.")]

/-- `confirmBooking(phone, bookingRef, ...)`: flip the referenced
appointment to `confirmed` and echo the booking details. -/
def confirmBooking (phone bookingRef : String) (store : Store) (now : String) :
    Effects :=
  match store.find? (fun p => p.1 = bookingRef) with
  | none =>
    { store := store, created := [],
      sends := [.text phone "Sorry, we couldn\x27t find your booking. Please try again."] }
  | some (_, appointment) =>
    let updated := { appointment with status := "confirmed", updatedAt := now }
    { store := store.map (fun p => if p.1 = bookingRef then (p.1, updated) else p),
      created := [],
      sends := [.text phone ("Your booking has been confirmed!\n\n*Booking Details*\nService: " ++
        appointment.serviceName ++ "\nDate: " ++ appointment.appointmentDate ++
        "\nTime: " ++ appointment.appointmentTime ++ "\n\nWe look forward to seeing you!")] }

/-- `cancelBookingRequest(phone, bookingRef)`. -/
def cancelBookingRequest (phone : String) : List OutMsg :=
  [.text phone "Your booking request has been cancelled. You can start a new booking anytime."]

/-- An interactive (list/button reply) message body. -/
inductive InteractiveMsg where
  | listReply (id : String)
  | buttonReply (id : String)
  | otherInteractive
  deriving DecidableEq, Repr

/-- The typed content of an inbound message (`message.type` plus the
payload field that type carries). -/
inductive MsgContent where
  | text (body : Option String)
  | button (payload : Option String)
  | interactive (i : Option InteractiveMsg)
  | unsupported
  deriving DecidableEq, Repr

/-- One inbound WhatsApp message (`from` renamed `fromNumber`). -/
structure WaMessage where
  fromNumber : String
  content : MsgContent
  deriving DecidableEq, Repr

/-- `processButtonMessage`: dispatch on the button payload prefix. -/
def processButtonMessage (payload : Option String) (fromNumber : String)
    (businessProfile : BusinessProfile) (parlourId : String) (store : Store)
    (today : Ymd) (now : String) : Effects :=
  match payload with
  | none => noEffects store
  | some payload =>
    if payload = "" then noEffects store
    else if startsWithStr payload "BOOK_SERVICE_" then
      { store := store, created := [],
        sends := handleServiceSelection fromNumber (dropStr payload 13) businessProfile today }
    else if startsWithStr payload "CANCEL_APPOINTMENT_" then
      cancelAppointment fromNumber (dropStr payload 19) parlourId store now
    else if payload = "VIEW_SERVICES" then
      { store := store, created := [], sends := sendServicesList fromNumber businessProfile }
    else if payload = "VIEW_HOURS" then
      { store := store, created := [], sends := sendWorkingHours fromNumber businessProfile }
    else
      { store := store, created := [],
        sends := [.text fromNumber "Sorry, I couldn\x27t process that selection. Please try again or type \"help\" for assistance."] }

/-- `processInteractiveMessage`: dispatch on the reply id prefix (an
unrecognised id falls through silently). -/
def processInteractiveMessage (i : Option InteractiveMsg) (fromNumber : String)
    (businessProfile : BusinessProfile) (parlourId : String) (store : Store)
    (today : Ymd) (now : String) : Effects :=
  match i with
  | none => noEffects store
  | some (.listReply selectedOption) =>
    if startsWithStr selectedOption "SERVICE_" then
      { store := store, created := [],
        sends := handleServiceSelection fromNumber (dropStr selectedOption 8) businessProfile today }
    else if startsWithStr selectedOption "DATE_" then
      { store := store, created := [],
        sends := handleDateSelection fromNumber (dropStr selectedOption 5) today }
    else if startsWithStr selectedOption "TIME_" then
      { store := store, created := [],
        sends := handleTimeSelection fromNumber (dropStr selectedOption 5) }
    else noEffects store
  | some (.buttonReply selectedButton) =>
    if startsWithStr selectedButton "CONFIRM_" then
      confirmBooking fromNumber (dropStr selectedButton 8) store now
    else if startsWithStr selectedButton "CANCEL_" then
      { store := store, created := [], sends := cancelBookingRequest fromNumber }
    else noEffects store
  | some .otherInteractive => noEffects store

/-- The reply to an unsupported message type. -/
def unsupportedTypeMessage : String :=
  "I can help you book an appointment. Please send a message like: \"Book Haircut on 2nd May 3PM\" or \"Book Haircut tomorrow at 2 PM\""

/-- `processMessage(message, metadata)`: resolve the business profile by
the channel's `phone_number_id` (`limit(1)` — first match), then dispatch
on the message type. -/
def processMessage (message : WaMessage) (phoneNumberId : String)
    (profiles : List (String × BusinessProfile)) (store : Store)
    (today : Ymd) (now : String) : Effects :=
  match profiles.find? (fun p => p.2.whatsappNumber = phoneNumberId) with
  | none =>
    { store := store, created := [],
      sends := [.text message.fromNumber "Sorry, this number is not registered with any parlour."] }
  | some (parlourId, businessProfile) =>
    match message.content with
    | .text none => noEffects store
    | .text (some body) =>
      if body = "" then noEffects store
      else processTextMessage body message.fromNumber businessProfile parlourId store today now
    | .button payload =>
      processButtonMessage payload message.fromNumber businessProfile parlourId store today now
    | .interactive i =>
      processInteractiveMessage i message.fromNumber businessProfile parlourId store today now
    | .unsupported =>
      { store := store, created := [], sends := [.text message.fromNumber unsupportedTypeMessage] }

/-! ### The webhook boundary -/

/-- `value.metadata` of a `messages` change. -/
structure WaMetadata where
  phoneNumberId : String
  deriving DecidableEq, Repr

/-- `change.value`. -/
structure ChangeValue where
  metadata : WaMetadata
  messages : Option (List WaMessage)
  deriving DecidableEq, Repr

/-- One element of `entry[0].changes`. -/
structure WaChange where
  field : String
  value : Option ChangeValue
  deriving DecidableEq, Repr

/-- One element of `body.entry`. -/
structure WaEntry where
  changes : Option (List WaChange)
  deriving DecidableEq, Repr

/-- A webhook POST body: the truthiness of `body.object` and the `entry`
array (absent field modelled as `none`). -/
structure WebhookBody where
  object : Bool
  entry : Option (List WaEntry)
  deriving DecidableEq, Repr

/-- Process every message of one `messages` change in order, threading
the store. -/
def processMessages (msgs : List WaMessage) (phoneNumberId : String)
    (profiles : List (String × BusinessProfile)) (acc : Effects)
    (today : Ymd) (now : String) : Effects :=
  msgs.foldl (fun acc m =>
    let r := processMessage m phoneNumberId profiles acc.store today now
    { store := r.store, created := acc.created ++ r.created,
      sends := acc.sends ++ r.sends }) acc

/-- One iteration of the `for (const change of changes)` loop: non-
`messages` fields and empty/missing message lists are skipped. -/
def processChange (profiles : List (String × BusinessProfile)) (today : Ymd)
    (now : String) (acc : Effects) (change : WaChange) : Effects :=
  if change.field ≠ "messages" then acc
  else
    match change.value with
    | none => acc
    | some value =>
      match value.messages with
      | none => acc
      | some [] => acc
      | some msgs => processMessages msgs value.metadata.phoneNumberId profiles acc today now

/-- HTTP outcome of the POST branch of `handleWhatsAppWebhook`. -/
inductive PostStatus where
  | ok200
  | badRequest400
  | serverError500
  deriving DecidableEq, Repr

/-- Result of a webhook POST: the HTTP status and the effects. -/
structure PostResult where
  status : PostStatus
  effects : Effects
  deriving DecidableEq, Repr

/-- The POST branch of `handleWhatsAppWebhook`: reject structurally
invalid bodies with 400, then process **only `entry[0]`'s changes** and
acknowledge 200.  (An empty `entry` array is truthy in JS, so the guard
reads `.changes` of `undefined` and the catch-all answers 500.) -/
def handleWhatsAppWebhookPost (body : WebhookBody)
    (profiles : List (String × BusinessProfile)) (store : Store)
    (today : Ymd) (now : String) : PostResult :=
  if !body.object then ⟨.badRequest400, noEffects store⟩
  else
    match body.entry with
    | none => ⟨.badRequest400, noEffects store⟩
    | some [] => ⟨.serverError500, noEffects store⟩
    | some (e0 :: _) =>
      match e0.changes with
      | none => ⟨.badRequest400, noEffects store⟩
      | some changes =>
        ⟨.ok200, changes.foldl (processChange profiles today now) (noEffects store)⟩

/-- The two environment tokens the GET verification consults. -/
structure WebhookEnv where
  webhookVerifyToken : Option String
  whatsappApiToken : Option String
  deriving DecidableEq, Repr

/-- Outcome of the GET verification handshake. -/
inductive GetResponse where
  | okChallenge (challenge : Option String)
  | forbidden
  deriving DecidableEq, Repr

/-- The GET branch of `handleWhatsAppWebhook`: echo the challenge with
200 when `hub.mode === 'subscribe'` and `hub.verify_token` equals
`WEBHOOK_VERIFY_TOKEN` **or** `WHATSAPP_API_TOKEN`; otherwise 403.
Missing query parameters / env variables are `none` (JS `undefined`;
`undefined === undefined` holds, as `none = none` does here). -/
def handleWhatsAppWebhookGet (env : WebhookEnv)
    (mode token challenge : Option String) : GetResponse :=
  if mode = some "subscribe" ∧
      (token = env.webhookVerifyToken ∨ token = env.whatsappApiToken) then
    .okChallenge challenge
  else .forbidden

/-! ### Helper lemmas -/

/-- `List.find?` returns the unique element satisfying the predicate. -/
theorem find?_eq_some_of_mem_unique {α : Type} {l : List α} {p : α → Bool} {a : α}
    (ha : a ∈ l) (hpa : p a = true) (huniq : ∀ x ∈ l, p x = true → x = a) :
    l.find? p = some a := by
  induction l with
  | nil => cases ha
  | cons b t ih =>
    by_cases hb : p b = true
    · have hba : b = a := huniq b (List.mem_cons_self b t) hb
      subst hba
      simp [List.find?_cons_of_pos _ hb]
    · rw [List.find?_cons_of_neg _ (by simpa using hb)]
      rcases List.mem_cons.mp ha with h | h
      · subst h; exact absurd hpa hb
      · exact ih h (fun x hx hpx => huniq x (List.mem_cons_of_mem _ hx) hpx)

/-! ### The claims -/

/-- **C2.** For every booking attempt whose resolved appointment date is
strictly before the current date (date-only, midnight-normalised
comparison), `handleBookingRequest` replies with the "cannot book in the
past" message and creates no appointment — the appointments store is
unchanged. -/
theorem bookingRejectsPastDates (phone parlourId originalMessage now : String)
    (bookingData : BookingData) (businessProfile : BusinessProfile)
    (store : Store) (today : Ymd) (sv : Service)
    (hmatch : matchService bookingData.service businessProfile.services = some sv)
    (hpast : ymdLt (parseDateY bookingData.date today) today = true) :
    handleBookingRequest phone bookingData businessProfile parlourId
        originalMessage store today now =
      { store := store, created := [], sends := [.text phone pastDateMessage] } := by
  simp [handleBookingRequest, hmatch, hpast]

/-- Witness for C2: booking "Massage" on 2000-01-01 with today =
2025-06-01 is rejected with the past-date reply and creates nothing. -/
theorem bookingRejectsPastDates_witness :
    handleBookingRequest "15550001111" ⟨"Massage", "2000-01-01", "10am"⟩
        ⟨"Glow Salon", "15551230000", [⟨"m1", "Massage", 60, 500, none⟩], [], none⟩
        "parlour1" "Book Massage on 2000-01-01 10am" [] ⟨2025, 6, 1⟩ "T" =
      { store := [], created := [],
        sends := [.text "15550001111" pastDateMessage] } :=
  bookingRejectsPastDates "15550001111" "parlour1"
    "Book Massage on 2000-01-01 10am" "T" ⟨"Massage", "2000-01-01", "10am"⟩
    ⟨"Glow Salon", "15551230000", [⟨"m1", "Massage", 60, 500, none⟩], [], none⟩
    [] ⟨2025, 6, 1⟩ ⟨"m1", "Massage", 60, 500, none⟩ (by decide) (by decide)

/-- **C3.** A cancel-by-reference request that resolves to an appointment
already in status `cancelled` replies "already cancelled", leaves the
store untouched and in particular appends no second audit note. -/
theorem cancelAlreadyCancelledIsNoOp (phone refCode parlourId now : String)
    (store : Store) (appointmentId : String) (a : Appointment)
    (hfind : findCancelTarget store refCode parlourId (formatPhone phone) =
      some (appointmentId, a))
    (hstatus : a.status = "cancelled") :
    cancelAppointment phone refCode parlourId store now =
      { store := store, created := [],
        sends := [.text phone alreadyCancelledMessage] } := by
  simp [cancelAppointment, hfind, hstatus]

/-- Witness for C3: a concrete store with one already-cancelled
appointment matched by its reference prefix. -/
theorem cancelAlreadyCancelledIsNoOp_witness :
    cancelAppointment "15550001111" "abcd" "parlour1"
        [("abcd1234efgh", ⟨"parlour1", "Glow Salon", "C", "+15550001111", "s1",
          "Haircut", "2026-05-15", "3 PM", 30, 200, "cancelled", "T0", "T0", "n"⟩)]
        "T1" =
      { store := [("abcd1234efgh", ⟨"parlour1", "Glow Salon", "C", "+15550001111",
          "s1", "Haircut", "2026-05-15", "3 PM", 30, 200, "cancelled", "T0", "T0", "n"⟩)],
        created := [],
        sends := [.text "15550001111" alreadyCancelledMessage] } :=
  cancelAlreadyCancelledIsNoOp "15550001111" "abcd" "parlour1" "T1"
    [("abcd1234efgh", ⟨"parlour1", "Glow Salon", "C", "+15550001111", "s1",
      "Haircut", "2026-05-15", "3 PM", 30, 200, "cancelled", "T0", "T0", "n"⟩)]
    "abcd1234efgh"
    ⟨"parlour1", "Glow Salon", "C", "+15550001111", "s1", "Haircut",
      "2026-05-15", "3 PM", 30, 200, "cancelled", "T0", "T0", "n"⟩
    (by decide) (by decide)

/-- **C4.** The ServiceMatcher: a case-insensitive exact name match is
returned even when another entry's name merely contains the text
(exact always wins); with no exact match, the first substring match in
catalog order is returned; with neither, the booking handler replies
with the list of valid service names and creates nothing. -/
theorem serviceMatcherPolicy (phone parlourId originalMessage now : String)
    (bookingData : BookingData) (businessProfile : BusinessProfile)
    (store : Store) (today : Ymd) :
    (∀ e ∈ businessProfile.services,
      exactNameMatch bookingData.service e = true →
      (∀ x ∈ businessProfile.services, exactNameMatch bookingData.service x = true → x = e) →
      matchService bookingData.service businessProfile.services = some e)
    ∧ ((∀ x ∈ businessProfile.services, exactNameMatch bookingData.service x = false) →
      matchService bookingData.service businessProfile.services =
        businessProfile.services.find? (subNameMatch bookingData.service))
    ∧ (matchService bookingData.service businessProfile.services = none →
      handleBookingRequest phone bookingData businessProfile parlourId
          originalMessage store today now =
        { store := store, created := [],
          sends := [.text phone
            (serviceNotFoundMessage bookingData.service businessProfile.services)] }) := by
  refine ⟨fun e he hex huniq => ?_, fun hnoexact => ?_, fun hnone => ?_⟩
  · have h : businessProfile.services.find? (exactNameMatch bookingData.service) = some e :=
      find?_eq_some_of_mem_unique he hex huniq
    simp [matchService, h]
  · have h : businessProfile.services.find? (exactNameMatch bookingData.service) = none :=
      List.find?_eq_none.mpr (fun x hx => by simp [hnoexact x hx])
    simp [matchService, h]
  · simp [handleBookingRequest, hnone]

/-- Witness for C4 (exact beats substring): with catalog
["Hair Spa", "hair"], the text "Hair" matches the exact entry "hair"
even though "Hair Spa" comes first and contains the text. -/
theorem serviceMatcherPolicy_witness :
    matchService "Hair"
        [⟨"1", "Hair Spa", 45, 500, none⟩, ⟨"2", "hair", 30, 200, none⟩] =
      some ⟨"2", "hair", 30, 200, none⟩ :=
  (serviceMatcherPolicy "p" "pid" "m" "t" ⟨"Hair", "d", "tm"⟩
      ⟨"B", "n", [⟨"1", "Hair Spa", 45, 500, none⟩, ⟨"2", "hair", 30, 200, none⟩], [], none⟩
      [] ⟨2025, 1, 1⟩).1
    ⟨"2", "hair", 30, 200, none⟩ (by decide) (by decide) (by decide)

/-- **C8.** A date string matching none of the recognised patterns
(relative keyword, machine-parseable literal, day+month-name,
month-name+day, numeric slash/dash) makes `parseDate` fall back to the
current date — not an error marker. -/
theorem parseDateFallsBackToToday (s : String) (today : Ymd)
    (h1 : toLowerStr s ≠ "today") (h2 : toLowerStr s ≠ "tomorrow")
    (h3 : toLowerStr s ≠ "day after tomorrow")
    (hjs : jsDateParse s = none)
    (hdm : dayMonthResolved (toLowerStr s) = none)
    (hmd : monthDayResolved (toLowerStr s) = none)
    (hnum : numericMatch (toLowerStr s) = none) :
    parseDateY s today = today := by
  simp [parseDateY, h1, h2, h3, hjs, hdm, hmd, hnum]

/-- Witness for C8: "xyz" resolves to the reference date itself. -/
theorem parseDateFallsBackToToday_witness :
    parseDateY "xyz" ⟨2025, 3, 3⟩ = ⟨2025, 3, 3⟩ :=
  parseDateFallsBackToToday "xyz" ⟨2025, 3, 3⟩ (by decide) (by decide)
    (by decide) (by decide) (by decide) (by decide) (by decide)

/-- The "next <weekday>" branch of `parseDateExpression` resolves to
`today + offset`, with a zero offset replaced by a full week. -/
theorem nextWeekdayResolved (w : String) (j : Nat) (today : Ymd)
    (hscan : scanKeywordWeekday "next" (toLowerStr ("next " ++ w)) = some j)
    (h : getDayOfWeek today = j) :
    parseDateExpression ("next " ++ w) today = toISO (addDays today 7) := by
  have hk : (j + 7 - getDayOfWeek today) % 7 = 0 := by rw [h]; omega
  simp [parseDateExpression, parseDateExpressionY, hscan, hk]

/-- **C5.** For every weekday name and every reference date falling on
that very weekday, "next <weekday>" resolves to the date exactly 7 days
later — never the reference date itself. -/
theorem nextWeekdayNeverZeroOffset (today : Ymd) (i : Fin 7)
    (h : getDayOfWeek today = i.val) :
    parseDateExpression ("next " ++ dayNames.getD i.val "") today =
      toISO (addDays today 7) := by
  fin_cases i <;> exact nextWeekdayResolved _ _ today (by decide) h

/-- Witness for C5: 2025-01-06 is a Monday and "next monday" resolves to
2025-01-13, seven days later. -/
theorem nextWeekdayNeverZeroOffset_witness :
    getDayOfWeek ⟨2025, 1, 6⟩ = (1 : Fin 7).val ∧
      parseDateExpression "next monday" ⟨2025, 1, 6⟩ = "2025-01-13" := by
  refine ⟨by decide, ?_⟩
  exact (nextWeekdayNeverZeroOffset ⟨2025, 1, 6⟩ 1 (by decide)).trans (by decide)

/-- **C6 counterexample.** "2/5/2023" is already accepted by the JS
`Date` constructor, which reads it month-first: the parser returns
February 5th (2023-02-05), not May 2nd (2023-05-02) as a day-first
reading demands. -/
theorem numericDateMonthFirstCounterexample :
    parseDate "2/5/2023" ⟨2025, 1, 1⟩ = "2023-02-05" ∧
      ("2023-02-05" : String) ≠ "2023-05-02" :=
  ⟨by decide, by decide⟩

/-- `new Date(year, m - 1, d)` for a calendar-valid month/day pair is
exactly the date (year, m, d). -/
theorem mkJsDate_valid (year m d : Nat) (hm1 : 1 ≤ m) (hm12 : m ≤ 12)
    (hd1 : 1 ≤ d) (hdle : d ≤ daysInMonth year m) :
    mkJsDate year ((m : Int) - 1) d = ⟨year, m, d⟩ := by
  have e1 : ((m : Int) - 1).ediv 12 = 0 := by interval_cases m <;> decide
  have e2 : (((m : Int) - 1).emod 12).toNat = m - 1 := by interval_cases m <;> decide
  simp only [mkJsDate, e1, e2]
  rw [if_neg (by omega)]
  have e3 : ((year : Int) + 0).toNat = year := by omega
  have e4 : m - 1 + 1 = m := by omega
  rw [e3, e4, addDays_same_month year m 1 (d - 1) (by omega)]
  congr 1
  omega

/-- Fidelity check: `new Date(y, -1, d)` rolls backwards into December
of the previous year. -/
theorem mkJsDate_monthMinusOne_rollsBack :
    mkJsDate 2025 (-1) 15 = ⟨2024, 12, 15⟩ := by decide

/-- Fidelity check: the user input "15/0" reaches `new Date(y, -1, 15)`
and resolves to December 15 of the year before the current one. -/
theorem parseDate_monthZero_rollsBack :
    parseDateY "15/0" ⟨2025, 6, 1⟩ = ⟨2024, 12, 15⟩ := by decide

/-- Fidelity check: a numeric date beyond the JS `Date` range makes
`toISOString` throw and `parseDate`'s catch return today. -/
theorem parseDate_beyondJsRange_isToday :
    parseDateY "15/5/999999" ⟨2025, 6, 1⟩ = ⟨2025, 6, 1⟩ := by decide

/-- **C6 amended.** The day-first `D/M(/Y)` reading (with 2-digit years
coerced to 2000+YY) applies only to numeric strings the JS `Date`
constructor fails to parse (e.g. a first component above 12); strings
the constructor accepts are read month-first by the earlier whole-string
parse.  On the day-first branch, a calendar-valid month/day pair within
the JS `Date` range resolves to that day-first date; a `0` month rolls
back into the previous December (`new Date(y, -1, d)`), and a date past
the JS range falls to today via the RangeError catch. -/
theorem numericDateDayFirstWhenCtorFails (s : String) (today : Ymd)
    (d m year : Nat) (yOpt : Option Nat)
    (h1 : toLowerStr s ≠ "today") (h2 : toLowerStr s ≠ "tomorrow")
    (h3 : toLowerStr s ≠ "day after tomorrow")
    (hjs : jsDateParse s = none)
    (hdmr : dayMonthResolved (toLowerStr s) = none)
    (hmdr : monthDayResolved (toLowerStr s) = none)
    (hnum : numericMatch (toLowerStr s) = some (d, m, yOpt))
    (hyear : year =
      match yOpt with
      | some y => if y < 100 then y + 2000 else y
      | none => today.year)
    (hm1 : 1 ≤ m) (hm12 : m ≤ 12) (hd1 : 1 ≤ d)
    (hdle : d ≤ daysInMonth year m)
    (hrange : ymdLt jsMaxDate ⟨year, m, d⟩ = false) :
    parseDateY s today = ⟨year, m, d⟩ := by
  have hmk := mkJsDate_valid year m d hm1 hm12 hd1 hdle
  cases yOpt with
  | some y =>
    subst hyear
    simp [parseDateY, h1, h2, h3, hjs, hdmr, hmdr, hnum, hmk,
      rangeCheckedOrToday, hrange]
  | none =>
    subst hyear
    simp [parseDateY, h1, h2, h3, hjs, hdmr, hmdr, hnum, hmk,
      rangeCheckedOrToday, hrange]

/-- Witness for C6: "15/5/23" (first component above 12, 2-digit year)
resolves day-first to 2023-05-15. -/
theorem numericDateDayFirstWhenCtorFails_witness :
    parseDateY "15/5/23" ⟨2025, 1, 1⟩ = ⟨2023, 5, 15⟩ :=
  numericDateDayFirstWhenCtorFails "15/5/23" ⟨2025, 1, 1⟩ 15 5 2023 (some 23)
    (by decide) (by decide) (by decide) (by decide) (by decide) (by decide)
    (by decide) (by decide) (by decide) (by decide) (by decide) (by decide)
    (by decide)

set_option maxRecDepth 8192 in
/-- **C7 (code-bug evidence).** The text `cancel ab12cd34` never reaches
the cancel-by-reference path: the keyword router only matches the whole
word `cancel`, the booking templates require `book`, so the handler
replies with the generic command-vocabulary fallback and performs no
lookup and no store write — although the bot's own status and
cancellation-list messages instruct exactly this `cancel <ref>` reply. -/
theorem cancelWithRefHitsFallback :
    processTextMessage "cancel ab12cd34" "15550001111"
        ⟨"Glow Salon", "15551230000", [⟨"s1", "Haircut", 30, 200, none⟩], [], none⟩
        "parlour1" [] ⟨2026, 4, 1⟩ "T" =
      { store := [], created := [],
        sends := [.text "15550001111" (commandVocabularyMessage "Glow Salon")] } := by
  decide

/-- **C9 counterexample.** With distinct configured tokens, a GET
carrying the *API* token (not the verification token) is still answered
200 with the echoed challenge, contradicting "403 in every other
case". -/
theorem webhookVerifyCounterexample :
    handleWhatsAppWebhookGet ⟨some "verify-secret", some "api-secret"⟩
        (some "subscribe") (some "api-secret") (some "challenge-123") =
      .okChallenge (some "challenge-123") ∧
      (some "api-secret" : Option String) ≠ some "verify-secret" :=
  ⟨by decide, by decide⟩

/-- **C9 amended.** The GET verification echoes the challenge with 200
iff mode is `subscribe` and the supplied token equals the configured
verification token **or** the configured WhatsApp API token; otherwise
it responds 403. -/
theorem webhookVerifyCharacterisation (env : WebhookEnv)
    (mode token challenge : Option String) :
    (handleWhatsAppWebhookGet env mode token challenge = .okChallenge challenge ↔
      mode = some "subscribe" ∧
        (token = env.webhookVerifyToken ∨ token = env.whatsappApiToken)) ∧
    (handleWhatsAppWebhookGet env mode token challenge = .forbidden ↔
      ¬(mode = some "subscribe" ∧
        (token = env.webhookVerifyToken ∨ token = env.whatsappApiToken))) := by
  by_cases h : mode = some "subscribe" ∧
      (token = env.webhookVerifyToken ∨ token = env.whatsappApiToken)
  · simp [handleWhatsAppWebhookGet, h]
  · simp [handleWhatsAppWebhookGet, h]

/-- Witness for C9 (amended): the verification token itself verifies. -/
theorem webhookVerifyCharacterisation_witness :
    handleWhatsAppWebhookGet ⟨some "vt", some "at"⟩ (some "subscribe")
        (some "vt") (some "ch") = .okChallenge (some "ch") :=
  (webhookVerifyCharacterisation ⟨some "vt", some "at"⟩ (some "subscribe")
    (some "vt") (some "ch")).1.mpr (by decide)

/-- **C10.** A webhook POST whose body carries several entries is
handled exactly as if only `entry[0]` were present: messages in
`entry[1]`, `entry[2]`, … produce no reply and no store write. -/
theorem onlyFirstEntryProcessed (object : Bool) (e0 : WaEntry)
    (rest : List WaEntry) (profiles : List (String × BusinessProfile))
    (store : Store) (today : Ymd) (now : String) :
    handleWhatsAppWebhookPost ⟨object, some (e0 :: rest)⟩ profiles store today now =
      handleWhatsAppWebhookPost ⟨object, some [e0]⟩ profiles store today now := by
  cases object <;> rfl

/-- `mkJsDate y 4 15` (JS `new Date(y, 4, 15)`) is May 15th of year `y`,
for every year. -/
theorem mkJsDate_may15 (y : Nat) : mkJsDate y 4 15 = ⟨y, 5, 15⟩ := by
  have h2 := addDays_same_month y 5 1 14 (by simp [daysInMonth])
  norm_num at h2
  unfold mkJsDate
  norm_num
  exact h2

set_option maxHeartbeats 1000000 in
/-- Routing of the scenario-1 message: it is no command keyword, pattern
1 of the booking parser extracts {service "Haircut", date "15th May",
time "3 PM"}, and the booking handler is invoked with them. -/
theorem bookHaircutRoute (today : Ymd) (businessProfile : BusinessProfile)
    (parlourId fromNumber now : String) (store : Store) :
    processTextMessage "Book Haircut on 15th May 3 PM" fromNumber businessProfile
        parlourId store today now =
      handleBookingRequest fromNumber ⟨"Haircut", "15th May", "3 PM"⟩
        businessProfile parlourId "Book Haircut on 15th May 3 PM" store today now := by
  have e1 : trimStr "Book Haircut on 15th May 3 PM" = "Book Haircut on 15th May 3 PM" := by decide
  have e2 : toLowerStr "Book Haircut on 15th May 3 PM" = "book haircut on 15th may 3 pm" := by decide
  have e3 : match1 "Book Haircut on 15th May 3 PM" = some ("Haircut", "15th May", "3 PM") := by decide
  have e4 : trimStr "Haircut" = "Haircut" := by decide
  have e5 : trimStr "15th May" = "15th May" := by decide
  have e6 : trimStr "3 PM" = "3 PM" := by decide
  simp [processTextMessage, parseBookingMessage, e1, e2, e3, e4, e5, e6]

/-- **C1 amended.** The text "Book Haircut on 15th May 3 PM", routed to
a business whose catalog's (unique) case-insensitive exact match for
"haircut" is a service named "Haircut" with duration 30 and price 200,
creates exactly one appointment {serviceName "Haircut", appointmentDate
Y-05-15 for the current year Y, appointmentTime "3 PM", status
"scheduled"} and triggers exactly one confirmation send — provided May
15th of the current year is not strictly before the current date
(otherwise the booking is rejected as in the past). -/
theorem bookHaircutScenario (today : Ymd) (businessProfile : BusinessProfile)
    (parlourId fromNumber now : String) (store : Store) (s : Service)
    (hmem : s ∈ businessProfile.services)
    (hname : s.name = "Haircut") (hdur : s.duration = 30) (hprice : s.price = 200)
    (huniq : ∀ x ∈ businessProfile.services, exactNameMatch "Haircut" x = true → x = s)
    (hfuture : ymdLt ⟨today.year, 5, 15⟩ today = false) :
    processTextMessage "Book Haircut on 15th May 3 PM" fromNumber businessProfile
        parlourId store today now =
      { store := store,
        created := [{
          parlourId := parlourId
          businessName := businessProfile.businessName
          customerName := "WhatsApp Customer (" ++ formatPhone fromNumber ++ ")"
          customerPhone := formatPhone fromNumber
          serviceId := s.id
          serviceName := "Haircut"
          appointmentDate := toISO ⟨today.year, 5, 15⟩
          appointmentTime := "3 PM"
          duration := 30
          price := 200
          status := "scheduled"
          createdAt := now
          updatedAt := now
          notes := "Booked via WhatsApp with message: \"Book Haircut on 15th May 3 PM\"" }],
        sends := [.confirmation fromNumber
          ("WhatsApp Customer (" ++ formatPhone fromNumber ++ ")") "Haircut"
          (toISO ⟨today.year, 5, 15⟩) "3 PM"] } := by
  obtain ⟨sid, sname, sdur, sprice, sdesc⟩ := s
  simp only at hname hdur hprice
  subst hname hdur hprice
  rw [bookHaircutRoute today businessProfile parlourId fromNumber now store]
  have hexact : businessProfile.services.find? (exactNameMatch "Haircut") =
      some ⟨sid, "Haircut", 30, 200, sdesc⟩ :=
    find?_eq_some_of_mem_unique hmem rfl huniq
  have hmatch : matchService "Haircut" businessProfile.services =
      some ⟨sid, "Haircut", 30, 200, sdesc⟩ := by
    simp [matchService, hexact]
  have hdate : parseDateY "15th May" today = mkJsDate today.year 4 15 := by
    have d1 : toLowerStr "15th May" = "15th may" := by decide
    have d2 : jsDateParse "15th May" = none := by decide
    have d3 : dayMonthResolved "15th may" = some (15, 4) := by decide
    simp [parseDateY, d1, d2, d3]
  simp [handleBookingRequest, hmatch, hdate, mkJsDate_may15, hfuture]

/-- **C1 counterexample.** On 2026-10-11 (after May 15th of the current
year) the very same message and catalog create **no** appointment and
trigger no confirmation: the resolved date 2026-05-15 is in the past, so
the handler sends the past-date rejection instead. -/
theorem bookHaircutScenario_counterexample :
    processTextMessage "Book Haircut on 15th May 3 PM" "15550001111"
        ⟨"Glow Salon", "15551230000", [⟨"s1", "Haircut", 30, 200, none⟩], [], none⟩
        "parlour1" [] ⟨2026, 10, 11⟩ "T" =
      { store := [], created := [],
        sends := [.text "15550001111" pastDateMessage] } := by
  decide

/-- Witness for C1 (amended): the same input on 2026-04-01 (before May
15th) produces exactly the scenario's appointment and confirmation. -/
theorem bookHaircutScenario_witness :
    processTextMessage "Book Haircut on 15th May 3 PM" "15550001111"
        ⟨"Glow Salon", "15551230000", [⟨"s1", "Haircut", 30, 200, none⟩], [], none⟩
        "parlour1" [] ⟨2026, 4, 1⟩ "T" =
      { store := [],
        created := [⟨"parlour1", "Glow Salon", "WhatsApp Customer (+15550001111)",
          "+15550001111", "s1", "Haircut", toISO ⟨2026, 5, 15⟩, "3 PM", 30, 200,
          "scheduled", "T", "T",
          "Booked via WhatsApp with message: \"Book Haircut on 15th May 3 PM\""⟩],
        sends := [.confirmation "15550001111" "WhatsApp Customer (+15550001111)"
          "Haircut" (toISO ⟨2026, 5, 15⟩) "3 PM"] } := by
  have h := bookHaircutScenario ⟨2026, 4, 1⟩
    ⟨"Glow Salon", "15551230000", [⟨"s1", "Haircut", 30, 200, none⟩], [], none⟩
    "parlour1" "15550001111" "T" [] ⟨"s1", "Haircut", 30, 200, none⟩
    (by decide) rfl rfl rfl (by decide) (by decide)
  exact h.trans (by decide)
